import Mathlib

/-
Verification development for the cor-monitoring-service repository
(monitoring_background_service.py, monitoring_service_updated.py,
monitoring_service_api_only.py).

Modelling conventions:
* Instants are whole seconds since an arbitrary UTC epoch; a day is 86400
  seconds.  `datetime.utcnow().replace(hour=h, minute=m, second=0,
  microsecond=0)` becomes `atHM`.
* The float expressions of the source, such as `total_seconds() / 60 >
  tolerance` and `(successful / total) * 100`, become exact rational
  arithmetic; at the magnitudes the service handles the two agree.
* Issue strings are modelled as an inductive `Issue` carrying the payload of
  the corresponding Python f-string; `Issue.render` produces the literal text.
* Database / API queries are modelled by passing the query result (or the
  queried table column) to the function that performs the query.
-/

def daySecs : Nat := 86400

def todayStart (now : Nat) : Nat := now / daySecs * daySecs

def hourOf (now : Nat) : Nat := now % daySecs / 3600

def minuteOf (now : Nat) : Nat := now % 3600 / 60

/-- Model of `now.replace(hour=h, minute=m, second=0, microsecond=0)`. -/
def atHM (now h m : Nat) : Nat := todayStart now + h * 3600 + m * 60

/-- Convenience constructor: day `d` at `h:m:00` UTC. -/
def mkTime (d h m : Nat) : Nat := d * daySecs + h * 3600 + m * 60

/-- Status values produced by `check_process_schedule` in
`monitoring_background_service.py`. -/
inductive SchedStatus
  | onSchedule
  | overdue
  | waiting
deriving DecidableEq

/-- The dict returned by `check_process_schedule` /
`get_next_scheduled_time`; absent keys are `none`. -/
structure ScheduleVerdict where
  status : SchedStatus
  scheduledTime : Option Nat
  minutesOverdue : Option Nat
  nextScheduled : Option Nat
  healthy : Bool
deriving DecidableEq

/-- Insertion step for modelling Python `sorted`. -/
def insertAsc (x : Nat) : List Nat → List Nat
  | [] => [x]
  | y :: ys => if x ≤ y then x :: y :: ys else y :: insertAsc x ys

/-- Model of Python `sorted(schedule_hours)`. -/
def sortAsc (l : List Nat) : List Nat := l.foldr insertAsc []

/-- Model of Python `min(schedule_hours)` (the schedules are nonempty; the
empty-list value is irrelevant). -/
def listMinD : List Nat → Nat
  | [] => 0
  | x :: xs => xs.foldl Nat.min x

/-- `get_next_scheduled_time` (monitoring_background_service.py lines
160-172): the first sorted hour strictly after the current hour, today;
otherwise tomorrow at the smallest scheduled hour. -/
def getNextScheduledTime (scheduleHours : List Nat) (now : Nat) : Nat :=
  match (sortAsc scheduleHours).find? (fun h => decide (hourOf now < h)) with
  | some h => atHM now h 0
  | none => todayStart now + daySecs + listMinD scheduleHours * 3600

/-- Loop body of `check_process_schedule` (monitoring_background_service.py
lines 124-158).  The first list argument is the full schedule (used for the
final `waiting` verdict); the recursion walks the schedule in configuration
order and returns at the first hour that fires a branch.  The evaluator
consults no observed runs. -/
def checkProcessScheduleAux (scheduleHours : List Nat) (tol now : Nat) :
    List Nat → ScheduleVerdict
  | [] =>
    ⟨SchedStatus.waiting, none, none, some (getNextScheduledTime scheduleHours now), true⟩
  | h :: rest =>
    if h < hourOf now ∨ (h = hourOf now ∧ tol < minuteOf now) then
      if tol * 60 < now - atHM now h 0 then
        ⟨SchedStatus.overdue, some (atHM now h 0), some ((now - atHM now h 0) / 60), none, false⟩
      else checkProcessScheduleAux scheduleHours tol now rest
    else if h = hourOf now ∧ minuteOf now ≤ tol then
      ⟨SchedStatus.onSchedule, some (atHM now h 0), none, none, true⟩
    else checkProcessScheduleAux scheduleHours tol now rest

/-- `check_process_schedule(process_type, schedule_hours, tolerance_minutes)`
with `now` made explicit. -/
def checkProcessSchedule (scheduleHours : List Nat) (tol now : Nat) : ScheduleVerdict :=
  checkProcessScheduleAux scheduleHours tol now scheduleHours

/-- Issue strings appended by the health checks, as tagged values carrying
the payload of the corresponding f-string; `Issue.render` gives the text. -/
inductive Issue
  | lowSuccessRate (rate : ℚ)
  | noRecentWorkerRuns
  | noRecentRuns
  | missedScheduledRun (h m : Nat)
  | missedScheduledGeneration (h m : Nat)
  | noGenerationIn (hours : ℚ)
  | noTimestamp
  | noRecentNewsletterGeneration
  | invalidTimestamp (e : String)
  | healthCheckFailed (e : String)
  | fromApi (s : String)
deriving DecidableEq

/-- One-decimal fixed-point rendering of a nonnegative rational, modelling
the Python one-decimal float format (ties are immaterial at the values the
service produces). -/
def fmt1 (q : ℚ) : String :=
  let n : Nat := (⌊q * 10 + 1 / 2⌋).toNat
  toString (n / 10) ++ "." ++ toString (n % 10)

/-- Two-digit rendering of an hour or minute, as in the configured
schedule strings such as "06:00". -/
def pad2 (n : Nat) : String := (if n < 10 then "0" else "") ++ toString n

/-- The literal issue text of each f-string in the source. -/
def Issue.render : Issue → String
  | Issue.lowSuccessRate r => "Low success rate: " ++ fmt1 r ++ "%"
  | Issue.noRecentWorkerRuns => "No recent worker runs found"
  | Issue.noRecentRuns => "No recent worker runs"
  | Issue.missedScheduledRun h m =>
      "Missed scheduled run at " ++ pad2 h ++ ":" ++ pad2 m ++ " UTC"
  | Issue.missedScheduledGeneration h m =>
      "Missed scheduled generation at " ++ pad2 h ++ ":" ++ pad2 m ++ " UTC"
  | Issue.noGenerationIn hours => "No generation in " ++ fmt1 hours ++ " hours"
  | Issue.noTimestamp => "Recent newsletters have no generation timestamp"
  | Issue.noRecentNewsletterGeneration => "No recent newsletter generation"
  | Issue.invalidTimestamp e => "Invalid generation timestamp: " ++ e
  | Issue.healthCheckFailed e => "Health check failed: " ++ e
  | Issue.fromApi s => s

/-- `self.worker_schedule['times']` = 06:00, 12:00, 18:00, 00:00 UTC, as
(hour, minute) pairs in configuration order. -/
def workerTimes : List (Nat × Nat) := [(6, 0), (12, 0), (18, 0), (0, 0)]

/-- `check_worker_schedule` (monitoring_service_updated.py lines 214-243):
for each configured time whose 30-minute deadline has passed, query worker
runs with `started_at` in [scheduled - 15 min, scheduled + 30 min] and report
a missed run when the window is empty.  `runStarts` is the `started_at`
column of the `worker_runs` table; the windowed query is its filter. -/
def checkWorkerSchedule (runStarts : List Nat) (now : Nat) : List Issue :=
  workerTimes.filterMap (fun hm =>
    if atHM now hm.1 hm.2 + 30 * 60 < now then
      if runStarts.any (fun r =>
          decide (atHM now hm.1 hm.2 - 15 * 60 ≤ r ∧ r ≤ atHM now hm.1 hm.2 + 30 * 60)) then
        none
      else some (Issue.missedScheduledRun hm.1 hm.2)
    else none)

/-- `check_publisher_schedule` (monitoring_service_updated.py lines 245-276):
single configured time 08:00 with 60-minute tolerance and 30-minute
lookback; `genTimes` is the `generated_at` column of non-CONFIG/PROMPT
newsletters. -/
def checkPublisherSchedule (genTimes : List Nat) (now : Nat) : List Issue :=
  if atHM now 8 0 + 60 * 60 < now then
    if genTimes.any (fun t =>
        decide (atHM now 8 0 - 30 * 60 ≤ t ∧ t ≤ atHM now 8 0 + 60 * 60)) then
      []
    else [Issue.missedScheduledGeneration 8 0]
  else []

/-- A `worker_runs` row: `started_at` and `status`. -/
structure WRun where
  startedAt : Nat
  status : String
deriving DecidableEq

/-- The worker health dict of monitoring_service_updated.py (fields other
than the listed ones are not produced by the analysed code). -/
structure WorkerHealth where
  status : String
  recentRuns : Nat
  successRate : ℚ
  lastRun : Option Nat
  issues : List Issue
deriving DecidableEq

/-- The trailing 2-hour query of `check_worker_health`:
`started_at >= now - 2 hours`. -/
def recentRuns2h (runs : List WRun) (now : Nat) : List WRun :=
  runs.filter (fun r => decide (now - 7200 ≤ r.startedAt))

/-- `success_rate = (successful_runs / len(recent_runs.data)) * 100`. -/
def workerRate (l : List WRun) : ℚ :=
  (((l.filter (fun r => r.status == "completed")).length : ℚ) / (l.length : ℚ)) * 100

/-- First row of the query ordered by `started_at` descending: the largest
start time. -/
def latestOf : List Nat → Option Nat
  | [] => none
  | x :: xs => some (xs.foldl Nat.max x)

/-- `check_worker_health` (monitoring_service_updated.py lines 94-134)
before the schedule-adherence step: inactive on zero recent runs, degraded
under a success rate strictly below 80, healthy otherwise. -/
def workerBase (runs : List WRun) (now : Nat) : WorkerHealth :=
  if recentRuns2h runs now = [] then
    ⟨"inactive", 0, 0, none, [Issue.noRecentWorkerRuns]⟩
  else if workerRate (recentRuns2h runs now) < 80 then
    ⟨"degraded", (recentRuns2h runs now).length, workerRate (recentRuns2h runs now),
      latestOf ((recentRuns2h runs now).map WRun.startedAt),
      [Issue.lowSuccessRate (workerRate (recentRuns2h runs now))]⟩
  else
    ⟨"healthy", (recentRuns2h runs now).length, workerRate (recentRuns2h runs now),
      latestOf ((recentRuns2h runs now).map WRun.startedAt), []⟩

/-- The schedule-adherence step of `check_worker_health`: extend the issues
and downgrade a healthy status to degraded when the schedule check reports
anything. -/
def applyWorkerSchedule (base : WorkerHealth) (sched : List Issue) : WorkerHealth :=
  if sched = [] then base
  else
    ⟨if base.status = "healthy" then "degraded" else base.status,
      base.recentRuns, base.successRate, base.lastRun, base.issues ++ sched⟩

/-- `check_worker_health` of monitoring_service_updated.py on the
`worker_runs` table (started_at column also feeds the schedule windows). -/
def checkWorkerHealthU (runs : List WRun) (now : Nat) : WorkerHealth :=
  applyWorkerSchedule (workerBase runs now) (checkWorkerSchedule (runs.map WRun.startedAt) now)

/-- The `generated_at` field of a newsletter row as seen by
`datetime.fromisoformat`: absent or empty (falsy), a parsable timestamp, or
a string whose parse raises. -/
inductive TsField
  | null
  | valid (t : Nat)
  | malformed (s : String)
deriving DecidableEq

/-- The publisher health dict of monitoring_service_updated.py.  The
`except` branch of the source returns a dict without counts; it is modelled
with `recentNewsletters = 0` and `lastGeneration = none`. -/
structure PubHealth where
  status : String
  recentNewsletters : Nat
  lastGeneration : Option TsField
  issues : List Issue
deriving DecidableEq

/-- `hours_since_last = (now - last_gen_time).total_seconds() / 3600`. -/
def hoursSince (now t : Nat) : ℚ := ((now : ℚ) - (t : ℚ)) / 3600

/-- The schedule-adherence step of `check_publisher_health`. -/
def applyPubSchedule (base : PubHealth) (genTimes : List Nat) (now : Nat) : PubHealth :=
  if checkPublisherSchedule genTimes now = [] then base
  else
    ⟨if base.status = "healthy" then "degraded" else base.status,
      base.recentNewsletters, base.lastGeneration,
      base.issues ++ checkPublisherSchedule genTimes now⟩

/-- `check_publisher_health` (monitoring_service_updated.py lines 155-212).
`recentNews` is the result of the trailing 24-hour query ordered by
`generated_at` descending; `genTimes` is the `generated_at` column feeding
the schedule-window query.  A malformed head timestamp makes
`fromisoformat` raise; the outer `except` returns the error dict and the
schedule check never runs. -/
def checkPublisherHealthU (recentNews : List TsField) (genTimes : List Nat) (now : Nat) :
    PubHealth :=
  match recentNews with
  | [] =>
    applyPubSchedule ⟨"inactive", 0, none, [Issue.noRecentNewsletterGeneration]⟩ genTimes now
  | TsField.null :: rest =>
    applyPubSchedule
      ⟨"degraded", rest.length + 1, some TsField.null, [Issue.noTimestamp]⟩ genTimes now
  | TsField.malformed s :: _ =>
    ⟨"error", 0, none, [Issue.healthCheckFailed s]⟩
  | TsField.valid t :: rest =>
    if 25 < hoursSince now t then
      applyPubSchedule
        ⟨"degraded", rest.length + 1, some (TsField.valid t),
          [Issue.noGenerationIn (hoursSince now t)]⟩ genTimes now
    else
      applyPubSchedule
        ⟨"healthy", rest.length + 1, some (TsField.valid t), []⟩ genTimes now

/-- The JSON body returned by GET /api/v1/monitoring/worker/status, with the
fields `check_worker_health` of monitoring_service_api_only.py reads
(absent fields already replaced by the `get` defaults of the source). -/
structure ApiWorkerStatus where
  status : String
  recentRuns : Nat
  successRate : ℚ
  lastRun : Option String
  issues : List Issue
deriving DecidableEq

/-- The worker health dict of monitoring_service_api_only.py. -/
structure ApiWorkerHealth where
  status : String
  recentRuns : Nat
  successRate : ℚ
  lastRun : Option String
  issues : List Issue
deriving DecidableEq

/-- `check_worker_health` (monitoring_service_api_only.py lines 137-184);
`none` models a failed API request. -/
def checkWorkerHealthApi (resp : Option ApiWorkerStatus) : ApiWorkerHealth :=
  match resp with
  | none => ⟨"error", 0, 0, none, [Issue.fromApi "Failed to get worker status from API"]⟩
  | some w =>
    let st1 := if w.successRate < 80 then "degraded" else w.status
    let is1 :=
      if w.successRate < 80 then w.issues ++ [Issue.lowSuccessRate w.successRate] else w.issues
    let st2 := if w.recentRuns = 0 then "inactive" else st1
    let is2 := if w.recentRuns = 0 then is1 ++ [Issue.noRecentRuns] else is1
    ⟨st2, w.recentRuns, w.successRate, w.lastRun, is2⟩

/-- The JSON body returned by GET /api/v1/monitoring/publisher/status, with
the fields `check_publisher_health` of monitoring_service_api_only.py
reads. -/
structure ApiPubStatus where
  status : String
  recentNewsletters : Nat
  lastGeneration : TsField
  issues : List Issue
deriving DecidableEq

/-- The publisher health dict of monitoring_service_api_only.py. -/
structure ApiPubHealth where
  status : String
  recentNewsletters : Nat
  lastGeneration : TsField
  issues : List Issue
deriving DecidableEq

/-- `check_publisher_health` (monitoring_service_api_only.py lines 186-239).
The timestamp parse sits in its own try/except: a malformed value only
appends an issue and leaves the status untouched. -/
def checkPublisherHealthApi (resp : Option ApiPubStatus) (now : Nat) : ApiPubHealth :=
  match resp with
  | none => ⟨"error", 0, TsField.null, [Issue.fromApi "Failed to get publisher status from API"]⟩
  | some p =>
    let st1 :=
      match p.lastGeneration with
      | TsField.null => p.status
      | TsField.valid t => if 25 < hoursSince now t then "degraded" else p.status
      | TsField.malformed _ => p.status
    let is1 :=
      match p.lastGeneration with
      | TsField.null => p.issues
      | TsField.valid t =>
        if 25 < hoursSince now t then p.issues ++ [Issue.noGenerationIn (hoursSince now t)]
        else p.issues
      | TsField.malformed s => p.issues ++ [Issue.invalidTimestamp s]
    let st2 := if p.recentNewsletters = 0 then "inactive" else st1
    let is2 :=
      if p.recentNewsletters = 0 then is1 ++ [Issue.noRecentNewsletterGeneration] else is1
    ⟨st2, p.recentNewsletters, p.lastGeneration, is2⟩

/-- One `send_alert` invocation: the alert identity, the wall-clock time of
the call, and whether SMTP submission (message construction through
`server.quit()`) succeeds. -/
structure AlertReq where
  service : String
  subject : String
  now : Nat
  smtpOk : Bool
deriving DecidableEq

/-- `alert_key = f-string service_subject`. -/
def alertKey (service subject : String) : String := service ++ "_" ++ subject

/-- Lookup in `self.last_alert_times` (most recent assignment first). -/
def lookupAlert (st : List (String × Nat)) (k : String) : Option Nat :=
  match st with
  | [] => none
  | p :: rest => if p.1 = k then some p.2 else lookupAlert rest k

/-- `send_alert` (monitoring_service_api_only.py lines 292-342 and
monitoring_service_updated.py lines 294-343): skip when alerts are
disabled; skip when the key was last sent strictly less than
`cooldown` minutes ago (`(now - last).total_seconds() / 60 <
cooldown` is `now < last + cooldown * 60`); otherwise attempt the SMTP
submission and record `last_alert_times[key] = now` only when it
succeeds.  Returns whether the alert was sent and the new state. -/
def sendAlertStep (enabled : Bool) (cooldown : Nat) (st : List (String × Nat))
    (r : AlertReq) : Bool × List (String × Nat) :=
  if enabled then
    match lookupAlert st (alertKey r.service r.subject) with
    | some last =>
      if r.now < last + cooldown * 60 then (false, st)
      else if r.smtpOk then (true, (alertKey r.service r.subject, r.now) :: st)
      else (false, st)
    | none =>
      if r.smtpOk then (true, (alertKey r.service r.subject, r.now) :: st)
      else (false, st)
  else (false, st)

/-- A sequence of `send_alert` calls threading `last_alert_times`; the
result lists (key, time) of each alert actually sent, in order. -/
def runAlerts (enabled : Bool) (cooldown : Nat) (st : List (String × Nat)) :
    List AlertReq → List (String × Nat)
  | [] => []
  | r :: rs =>
    (if (sendAlertStep enabled cooldown st r).1 then
      [(alertKey r.service r.subject, r.now)]
    else []) ++ runAlerts enabled cooldown (sendAlertStep enabled cooldown st r).2 rs

/-- The send times recorded for one alert key, in order of occurrence. -/
def sentTimesFor (k : String) (l : List (String × Nat)) : List Nat :=
  (l.filter (fun p => p.1 == k)).map Prod.snd

/-- Concrete run table: five runs at 06:45 on day 1, four completed and one
failed (success rate exactly 80%), none inside the 06:00 or 00:00 schedule
windows. -/
def c4RunsMissed : List WRun :=
  [⟨mkTime 1 6 45, "completed"⟩, ⟨mkTime 1 6 45, "completed"⟩,
   ⟨mkTime 1 6 45, "completed"⟩, ⟨mkTime 1 6 45, "completed"⟩,
   ⟨mkTime 1 6 45, "failed"⟩]

/-- Concrete run table: five runs at 06:15 on day 1 (four completed, one
failed: rate exactly 80%) plus one completed run at 00:05 covering the
midnight schedule window; at 07:00 only the 06:15 runs are in the trailing
2-hour window. -/
def c4RunsCovered : List WRun :=
  [⟨mkTime 1 6 15, "completed"⟩, ⟨mkTime 1 6 15, "completed"⟩,
   ⟨mkTime 1 6 15, "completed"⟩, ⟨mkTime 1 6 15, "completed"⟩,
   ⟨mkTime 1 6 15, "failed"⟩, ⟨mkTime 1 0 5, "completed"⟩]

/-- The trailing 2-hour window of `c4RunsCovered` at 07:00. -/
def c4RecentCovered : List WRun :=
  [⟨mkTime 1 6 15, "completed"⟩, ⟨mkTime 1 6 15, "completed"⟩,
   ⟨mkTime 1 6 15, "completed"⟩, ⟨mkTime 1 6 15, "completed"⟩,
   ⟨mkTime 1 6 15, "failed"⟩]

/-- Concrete run table with a 50% success rate in the trailing 2-hour
window at 07:00 and both schedule windows covered. -/
def c4RunsLow : List WRun :=
  [⟨mkTime 1 6 15, "completed"⟩, ⟨mkTime 1 6 15, "failed"⟩,
   ⟨mkTime 1 0 5, "completed"⟩]

/-- The trailing 2-hour window of `c4RunsLow` at 07:00. -/
def c4RecentLow : List WRun :=
  [⟨mkTime 1 6 15, "completed"⟩, ⟨mkTime 1 6 15, "failed"⟩]

theorem checkWorkerSchedule_shape (runStarts : List Nat) (now : Nat) :
    ∀ x ∈ checkWorkerSchedule runStarts now, ∃ h m, x = Issue.missedScheduledRun h m := by
  intro x hx
  rcases List.mem_filterMap.mp hx with ⟨hm, _, hfx⟩
  split at hfx
  · split at hfx
    · exact Option.noConfusion hfx
    · refine ⟨hm.1, hm.2, ?_⟩
      injection hfx with hfx
      exact hfx.symm
  · exact Option.noConfusion hfx

theorem checkPublisherSchedule_shape (genTimes : List Nat) (now : Nat) :
    ∀ x ∈ checkPublisherSchedule genTimes now, x = Issue.missedScheduledGeneration 8 0 := by
  intro x hx
  unfold checkPublisherSchedule at hx
  split at hx
  · split at hx
    · exact absurd hx (List.not_mem_nil x)
    · exact (List.mem_singleton.mp hx)
  · exact absurd hx (List.not_mem_nil x)

theorem applyWorkerSchedule_successRate (b : WorkerHealth) (s : List Issue) :
    (applyWorkerSchedule b s).successRate = b.successRate := by
  unfold applyWorkerSchedule
  split <;> rfl

theorem applyWorkerSchedule_nil (b : WorkerHealth) : applyWorkerSchedule b [] = b := by
  unfold applyWorkerSchedule
  simp

theorem applyWorkerSchedule_mem_left (b : WorkerHealth) (s : List Issue) (x : Issue)
    (hx : x ∈ b.issues) : x ∈ (applyWorkerSchedule b s).issues := by
  unfold applyWorkerSchedule
  split
  · exact hx
  · exact List.mem_append_left _ hx

theorem applyWorkerSchedule_mem_cases (b : WorkerHealth) (s : List Issue) (x : Issue)
    (hx : x ∈ (applyWorkerSchedule b s).issues) : x ∈ b.issues ∨ x ∈ s := by
  unfold applyWorkerSchedule at hx
  split at hx
  · exact Or.inl hx
  · exact List.mem_append.mp hx

theorem applyWorkerSchedule_status_of_ne (b : WorkerHealth) (s : List Issue)
    (h : b.status ≠ "healthy") : (applyWorkerSchedule b s).status = b.status := by
  unfold applyWorkerSchedule
  split
  · rfl
  · simp [h]

theorem applyWorkerSchedule_invariant (b : WorkerHealth) (s : List Issue)
    (hb : b.status ≠ "healthy" → b.issues ≠ []) :
    (applyWorkerSchedule b s).status ≠ "healthy" → (applyWorkerSchedule b s).issues ≠ [] := by
  unfold applyWorkerSchedule
  split
  · exact hb
  · next hs =>
    intro _
    simp [List.append_eq_nil, hs]

theorem workerBase_spec (runs : List WRun) (now : Nat) :
    (recentRuns2h runs now = []
      ∧ workerBase runs now = ⟨"inactive", 0, 0, none, [Issue.noRecentWorkerRuns]⟩)
    ∨ ((workerBase runs now).status = "degraded" ∧ (workerBase runs now).successRate < 80
      ∧ (workerBase runs now).issues = [Issue.lowSuccessRate ((workerBase runs now).successRate)])
    ∨ ((workerBase runs now).status = "healthy" ∧ ¬ (workerBase runs now).successRate < 80
      ∧ (workerBase runs now).issues = []) := by
  unfold workerBase
  split
  · next h => exact Or.inl ⟨h, rfl⟩
  · split
    · next h => exact Or.inr (Or.inl ⟨rfl, h, rfl⟩)
    · next h => exact Or.inr (Or.inr ⟨rfl, h, rfl⟩)

theorem workerBase_invariant (runs : List WRun) (now : Nat) :
    (workerBase runs now).status ≠ "healthy" → (workerBase runs now).issues ≠ [] := by
  rcases workerBase_spec runs now with ⟨_, heq⟩ | ⟨_, _, hiss⟩ | ⟨hst, _, _⟩
  · intro _
    rw [heq]
    simp
  · intro _
    rw [hiss]
    simp
  · intro h
    exact absurd hst h

theorem applyPubSchedule_status_of_ne (b : PubHealth) (g : List Nat) (now : Nat)
    (h : b.status ≠ "healthy") : (applyPubSchedule b g now).status = b.status := by
  unfold applyPubSchedule
  split
  · rfl
  · simp [h]

theorem applyPubSchedule_mem_left (b : PubHealth) (g : List Nat) (now : Nat) (x : Issue)
    (hx : x ∈ b.issues) : x ∈ (applyPubSchedule b g now).issues := by
  unfold applyPubSchedule
  split
  · exact hx
  · exact List.mem_append_left _ hx

theorem applyPubSchedule_mem_cases (b : PubHealth) (g : List Nat) (now : Nat) (x : Issue)
    (hx : x ∈ (applyPubSchedule b g now).issues) :
    x ∈ b.issues ∨ x ∈ checkPublisherSchedule g now := by
  unfold applyPubSchedule at hx
  split at hx
  · exact Or.inl hx
  · exact List.mem_append.mp hx

theorem applyPubSchedule_invariant (b : PubHealth) (g : List Nat) (now : Nat)
    (hb : b.status ≠ "healthy" → b.issues ≠ []) :
    (applyPubSchedule b g now).status ≠ "healthy" → (applyPubSchedule b g now).issues ≠ [] := by
  unfold applyPubSchedule
  split
  · exact hb
  · next hs =>
    intro _
    simp [List.append_eq_nil, hs]

theorem checkProcessScheduleAux_all_future (scheduleHours : List Nat) (tol now : Nat) :
    ∀ l : List Nat, (∀ h ∈ l, hourOf now < h) →
      checkProcessScheduleAux scheduleHours tol now l
        = ⟨SchedStatus.waiting, none, none, some (getNextScheduledTime scheduleHours now), true⟩ := by
  intro l
  induction l with
  | nil => intro _; rfl
  | cons h t ih =>
    intro hall
    have hh := hall h (List.mem_cons_self h t)
    have h1 : ¬ (h < hourOf now ∨ (h = hourOf now ∧ tol < minuteOf now)) := by omega
    have h2 : ¬ (h = hourOf now ∧ minuteOf now ≤ tol) := by omega
    simp only [checkProcessScheduleAux, h1, h2, if_false, if_neg, ite_false]
    exact ih (fun x hx => hall x (List.mem_cons_of_mem h hx))

/-- C1 (counterexample): at 06:10 on day 1, today's 00:00 entry of the
Worker schedule is on or before now and past its 30-minute deadline, and the
background evaluator consults no observed runs at all (so in particular no
observed run lies in the claimed window), yet the verdict is `on_schedule`
for the 06:00 entry — not `overdue` — refuting the claim's universal
overdue rule. -/
theorem C1_counterexample :
    (atHM (mkTime 1 6 10) 0 0 ≤ mkTime 1 6 10
      ∧ atHM (mkTime 1 6 10) 0 0 + 30 * 60 < mkTime 1 6 10)
    ∧ (checkProcessSchedule [6, 12, 18, 0] 30 (mkTime 1 6 10)).status = SchedStatus.onSchedule
    ∧ (checkProcessSchedule [6, 12, 18, 0] 30 (mkTime 1 6 10)).status ≠ SchedStatus.overdue := by
  decide

/-- C1 (amended): the overdue rule holds for the first scheduled hour in
configuration order whose branch fires: at 06:45 with the Worker schedule
the background evaluator reports `overdue` for today's 06:00 with
minutes_overdue = 45 (it consults no observed runs, so this also covers the
"no observed run in [05:45, 06:30]" scenario); and in the DB-direct
implementation every scheduled time whose deadline has passed with no
observed run in [scheduled - 15 min, scheduled + 30 min] contributes a
missed-scheduled-run issue. -/
theorem C1_overdue_rule :
    checkProcessSchedule [6, 12, 18, 0] 30 (mkTime 1 6 45)
      = ⟨SchedStatus.overdue, some (mkTime 1 6 0), some 45, none, false⟩
    ∧ ∀ (runStarts : List Nat) (now h m : Nat), (h, m) ∈ workerTimes →
        atHM now h m + 30 * 60 < now →
        (∀ r ∈ runStarts, ¬ (atHM now h m - 15 * 60 ≤ r ∧ r ≤ atHM now h m + 30 * 60)) →
        Issue.missedScheduledRun h m ∈ checkWorkerSchedule runStarts now := by
  constructor
  · decide
  · intro runStarts now h m hmem hdl hno
    have hany : runStarts.any (fun r =>
        decide (atHM now h m - 15 * 60 ≤ r ∧ r ≤ atHM now h m + 30 * 60)) = false := by
      simp only [List.any_eq_false, decide_eq_true_eq]
      exact hno
    unfold checkWorkerSchedule
    refine List.mem_filterMap.mpr ⟨(h, m), hmem, ?_⟩
    simp [hdl, hany]
    intro x hx h1
    have hx2 := hno x hx
    omega

/-- C1 (witness): the amended rule instantiated at 06:45 with no observed
runs yields the missed 06:00 issue. -/
theorem C1_witness :
    Issue.missedScheduledRun 6 0 ∈ checkWorkerSchedule [] (mkTime 1 6 45) :=
  C1_overdue_rule.2 [] (mkTime 1 6 45) 6 0 (by decide) (by decide)
    (fun r hr => absurd hr (List.not_mem_nil r))

/-- C2 (counterexample): at 00:10 with no observed run, the background
evaluator reports `on_schedule` (not `overdue`), and the DB-direct schedule
check reports no missed run either — refuting the claimed `overdue` verdict
at 00:10. -/
theorem C2_counterexample :
    (checkProcessSchedule [6, 12, 18, 0] 30 (mkTime 1 0 10)).status = SchedStatus.onSchedule
    ∧ (checkProcessSchedule [6, 12, 18, 0] 30 (mkTime 1 0 10)).status ≠ SchedStatus.overdue
    ∧ checkWorkerSchedule [] (mkTime 1 0 10) = [] := by
  decide

/-- C2 (amended): the midnight entry is referenced on the correct calendar
day: at 00:10 the background evaluator reports `on_schedule` for today's
00:00 (00:10 is inside the 30-minute tolerance), and once the tolerance has
passed — e.g. at 00:40 — it reports `overdue` for today's 00:00 with
minutes_overdue = 40 (not ~1480 minutes as yesterday's occurrence would
give), and the DB-direct schedule check flags the missed 00:00 run. -/
theorem C2_midnight_today :
    checkProcessSchedule [6, 12, 18, 0] 30 (mkTime 1 0 10)
      = ⟨SchedStatus.onSchedule, some (mkTime 1 0 0), none, none, true⟩
    ∧ checkProcessSchedule [6, 12, 18, 0] 30 (mkTime 1 0 40)
      = ⟨SchedStatus.overdue, some (mkTime 1 0 0), some 40, none, false⟩
    ∧ Issue.missedScheduledRun 0 0 ∈ checkWorkerSchedule [] (mkTime 1 0 40) := by
  decide

/-- C3 (counterexample): at 03:00 with the Worker schedule the background
evaluator reports `overdue` for today's 00:00 (180 minutes), not `waiting`
with next_scheduled 06:00 as claimed. -/
theorem C3_counterexample :
    checkProcessSchedule [6, 12, 18, 0] 30 (mkTime 1 3 0)
      = ⟨SchedStatus.overdue, some (mkTime 1 0 0), some 180, none, false⟩
    ∧ (checkProcessSchedule [6, 12, 18, 0] 30 (mkTime 1 3 0)).status ≠ SchedStatus.waiting := by
  decide

/-- C3 (amended): the waiting verdict carrying the next scheduled time is
produced exactly when no scheduled hour fires the overdue or on-schedule
branch; in particular when every scheduled hour is strictly later than the
current hour.  For the Publisher schedule (08:00) at 03:00 the verdict is
`waiting` with next_scheduled = today 08:00, and at 09:00:00 (all of
today's entries fired nothing) it is `waiting` with next_scheduled =
tomorrow 08:00.  For the Worker schedule at 03:00 the midnight entry makes
the evaluator report `overdue` instead (see the counterexample). -/
theorem C3_waiting_rule :
    checkProcessSchedule [8] 60 (mkTime 1 3 0)
      = ⟨SchedStatus.waiting, none, none, some (mkTime 1 8 0), true⟩
    ∧ checkProcessSchedule [8] 60 (mkTime 1 9 0)
      = ⟨SchedStatus.waiting, none, none, some (mkTime 2 8 0), true⟩
    ∧ ∀ (hours : List Nat) (tol now : Nat), (∀ h ∈ hours, hourOf now < h) →
        checkProcessSchedule hours tol now
          = ⟨SchedStatus.waiting, none, none, some (getNextScheduledTime hours now), true⟩ :=
  ⟨by decide, by decide,
    fun hours tol now hall => checkProcessScheduleAux_all_future hours tol now hours hall⟩

/-- C3 (witness): the general waiting rule instantiated at 03:00 with the
schedule 06:00/12:00/18:00 (all entries still ahead). -/
theorem C3_witness :
    checkProcessSchedule [6, 12, 18] 30 (mkTime 1 3 0)
      = ⟨SchedStatus.waiting, none, none,
          some (getNextScheduledTime [6, 12, 18] (mkTime 1 3 0)), true⟩ :=
  C3_waiting_rule.2.2 [6, 12, 18] 30 (mkTime 1 3 0) (by decide)


/-- C4 (counterexample): five runs at 06:45 (four completed, one failed)
give a success rate of exactly 80%, yet `check_worker_health` of
monitoring_service_updated.py reports `degraded` — the schedule-adherence
step downgrades the status (missed 06:00 and 00:00 windows) even though the
success-rate threshold did not fire.  The claim's universal "exactly 80% is
never downgraded to degraded" is therefore false as stated. -/
theorem C4_counterexample :
    (checkWorkerHealthU c4RunsMissed (mkTime 1 7 0)).successRate = 80
    ∧ (checkWorkerHealthU c4RunsMissed (mkTime 1 7 0)).status = "degraded" := by
  have hrec : recentRuns2h c4RunsMissed (mkTime 1 7 0) = c4RunsMissed := by decide
  have hf : (c4RunsMissed.filter (fun r => r.status == "completed")).length = 4 := by decide
  have hl : c4RunsMissed.length = 5 := by decide
  have hrate : workerRate c4RunsMissed = 80 := by
    rw [workerRate, hf, hl]
    norm_num
  have hsched : checkWorkerSchedule (c4RunsMissed.map WRun.startedAt) (mkTime 1 7 0)
      = [Issue.missedScheduledRun 6 0, Issue.missedScheduledRun 0 0] := by decide
  have hne : c4RunsMissed ≠ [] := by decide
  simp [checkWorkerHealthU, workerBase, hrec, hrate, hsched, hne, applyWorkerSchedule]

/-- C4 (amended): the success-rate threshold is strictly-less-than 80.  A
rate of exactly 80% never fires the low-success-rate downgrade: no
low-success-rate issue is appended, and when the schedule check reports no
issues the DB-direct status is `healthy` — any degraded verdict at exactly
80% can only come from the schedule-adherence step.  Any rate strictly below
80% (with a nonempty trailing 2-hour window) yields `degraded` with the
low-success-rate issue appended.  In the API-only implementation a rate of
exactly 80% leaves the response verdict completely unchanged, while a rate
strictly below 80% forces `degraded` with the issue appended. -/
theorem C4_success_threshold :
    (∀ (runs : List WRun) (now : Nat),
        (checkWorkerHealthU runs now).successRate = 80 →
        (∀ q : ℚ, Issue.lowSuccessRate q ∉ (checkWorkerHealthU runs now).issues)
        ∧ (checkWorkerSchedule (runs.map WRun.startedAt) now = [] →
            (checkWorkerHealthU runs now).status = "healthy"))
    ∧ (∀ (runs : List WRun) (now : Nat),
        recentRuns2h runs now ≠ [] →
        (checkWorkerHealthU runs now).successRate < 80 →
        (checkWorkerHealthU runs now).status = "degraded"
        ∧ Issue.lowSuccessRate ((checkWorkerHealthU runs now).successRate)
            ∈ (checkWorkerHealthU runs now).issues)
    ∧ (∀ w : ApiWorkerStatus, w.successRate = 80 → w.recentRuns ≠ 0 →
        checkWorkerHealthApi (some w)
          = ⟨w.status, w.recentRuns, w.successRate, w.lastRun, w.issues⟩)
    ∧ (∀ w : ApiWorkerStatus, w.successRate < 80 → w.recentRuns ≠ 0 →
        (checkWorkerHealthApi (some w)).status = "degraded"
        ∧ Issue.lowSuccessRate w.successRate ∈ (checkWorkerHealthApi (some w)).issues) := by
  refine ⟨?_, ?_, ?_, ?_⟩
  · intro runs now h80
    simp only [checkWorkerHealthU] at h80 ⊢
    rcases workerBase_spec runs now with ⟨_, heq⟩ | ⟨_, hlt, _⟩ | ⟨hst, _, hiss⟩
    · rw [heq, applyWorkerSchedule_successRate] at h80
      norm_num at h80
    · rw [applyWorkerSchedule_successRate] at h80
      rw [h80] at hlt
      norm_num at hlt
    · constructor
      · intro q hq
        rcases applyWorkerSchedule_mem_cases _ _ _ hq with hmem | hmem
        · rw [hiss] at hmem
          exact absurd hmem (List.not_mem_nil _)
        · obtain ⟨h', m', he⟩ := checkWorkerSchedule_shape _ _ _ hmem
          exact Issue.noConfusion he
      · intro hs
        rw [hs, applyWorkerSchedule_nil]
        exact hst
  · intro runs now hne hlt
    simp only [checkWorkerHealthU] at hlt ⊢
    rcases workerBase_spec runs now with ⟨hrec, _⟩ | ⟨hst, _, hiss⟩ | ⟨_, hnlt, _⟩
    · exact absurd hrec hne
    · constructor
      · rw [applyWorkerSchedule_status_of_ne _ _ (by rw [hst]; decide)]
        exact hst
      · rw [applyWorkerSchedule_successRate]
        apply applyWorkerSchedule_mem_left
        rw [hiss]
        exact List.mem_singleton.mpr rfl
    · rw [applyWorkerSchedule_successRate] at hlt
      exact absurd hlt hnlt
  · intro w h80 hr
    have hn : ¬ w.successRate < 80 := by rw [h80]; norm_num
    simp [checkWorkerHealthApi, hn, hr]
  · intro w hlt hr
    constructor
    · simp [checkWorkerHealthApi, hlt, hr]
    · simp [checkWorkerHealthApi, hlt, hr]

/-- C4 (witness): at exactly 80% with all schedule windows covered the
DB-direct verdict is `healthy`; at 50% it is `degraded` with the
low-success-rate issue; the API-only check leaves an 80% response unchanged
and downgrades a 79.9% response. -/
theorem C4_witness :
    (checkWorkerHealthU c4RunsCovered (mkTime 1 7 0)).status = "healthy"
    ∧ ((checkWorkerHealthU c4RunsLow (mkTime 1 7 0)).status = "degraded"
        ∧ Issue.lowSuccessRate ((checkWorkerHealthU c4RunsLow (mkTime 1 7 0)).successRate)
          ∈ (checkWorkerHealthU c4RunsLow (mkTime 1 7 0)).issues)
    ∧ checkWorkerHealthApi (some ⟨"healthy", 5, 80, none, []⟩)
        = ⟨"healthy", 5, 80, none, []⟩
    ∧ ((checkWorkerHealthApi (some ⟨"healthy", 10, 799 / 10, none, []⟩)).status = "degraded"
        ∧ Issue.lowSuccessRate (799 / 10)
          ∈ (checkWorkerHealthApi (some ⟨"healthy", 10, 799 / 10, none, []⟩)).issues) :=
  ⟨(C4_success_threshold.1 c4RunsCovered (mkTime 1 7 0) (by
      have hrec : recentRuns2h c4RunsCovered (mkTime 1 7 0) = c4RecentCovered := by decide
      have hf : (c4RecentCovered.filter (fun r => r.status == "completed")).length = 4 := by
        decide
      have hl : c4RecentCovered.length = 5 := by decide
      have hrate : workerRate c4RecentCovered = 80 := by
        rw [workerRate, hf, hl]
        norm_num
      have hne : c4RecentCovered ≠ [] := by decide
      have h80 : ¬ (80 : ℚ) < 80 := by norm_num
      simp [checkWorkerHealthU, applyWorkerSchedule_successRate, workerBase, hrec, hrate,
        hne, h80])).2 (by decide),
   C4_success_threshold.2.1 c4RunsLow (mkTime 1 7 0) (by decide) (by
      have hrec : recentRuns2h c4RunsLow (mkTime 1 7 0) = c4RecentLow := by decide
      have hf : (c4RecentLow.filter (fun r => r.status == "completed")).length = 1 := by decide
      have hl : c4RecentLow.length = 2 := by decide
      have hrate : workerRate c4RecentLow = 50 := by
        rw [workerRate, hf, hl]
        norm_num
      have hne : c4RecentLow ≠ [] := by decide
      have h50 : (50 : ℚ) < 80 := by norm_num
      simp [checkWorkerHealthU, applyWorkerSchedule_successRate, workerBase, hrec, hrate,
        hne, h50]),
   C4_success_threshold.2.2.1 ⟨"healthy", 5, 80, none, []⟩ rfl (by decide),
   C4_success_threshold.2.2.2 ⟨"healthy", 10, 799 / 10, none, []⟩
     (by show (799 / 10 : ℚ) < 80; norm_num) (by decide)⟩

/-- C7 (counterexample): the API-only worker check passes through an API
response whose status is `degraded` with an empty issue list — a
HealthVerdict whose status is neither `healthy` nor `on_schedule` yet whose
issue list is empty — refuting the claimed invariant. -/
theorem C7_counterexample :
    (checkWorkerHealthApi (some ⟨"degraded", 5, 90, none, []⟩)).status = "degraded"
    ∧ (checkWorkerHealthApi (some ⟨"degraded", 5, 90, none, []⟩)).issues = [] := by
  have h : ¬ (90 : ℚ) < 80 := by norm_num
  simp [checkWorkerHealthApi, h]

/-- C7 (amended): the invariant holds for the DB-direct health checks of
monitoring_service_updated.py: every verdict of `check_worker_health` and
`check_publisher_health` whose status is not `healthy` carries a non-empty
issue list.  (The API-only checks can return a non-healthy pass-through
status with an empty issue list — see the counterexample — and the
background schedule evaluator's verdicts carry no issue list at all.) -/
theorem C7_issue_invariant :
    (∀ (runs : List WRun) (now : Nat),
        (checkWorkerHealthU runs now).status ≠ "healthy" →
        (checkWorkerHealthU runs now).issues ≠ [])
    ∧ (∀ (news : List TsField) (genTimes : List Nat) (now : Nat),
        (checkPublisherHealthU news genTimes now).status ≠ "healthy" →
        (checkPublisherHealthU news genTimes now).issues ≠ []) := by
  constructor
  · intro runs now
    exact applyWorkerSchedule_invariant _ _ (workerBase_invariant runs now)
  · intro news genTimes now
    match news with
    | [] =>
      exact applyPubSchedule_invariant _ _ _ (fun _ => by simp)
    | TsField.null :: rest =>
      exact applyPubSchedule_invariant _ _ _ (fun _ => by simp)
    | TsField.malformed s :: rest =>
      intro _
      simp [checkPublisherHealthU]
    | TsField.valid t :: rest =>
      show (checkPublisherHealthU (TsField.valid t :: rest) genTimes now).status ≠ "healthy" → _
      simp only [checkPublisherHealthU]
      split
      · exact applyPubSchedule_invariant _ _ _ (fun _ => by simp)
      · exact applyPubSchedule_invariant _ _ _ (fun h => absurd rfl h)

/-- C7 (witness): the amended invariant instantiated on an empty run table
and an empty newsletter table (both verdicts are `inactive`). -/
theorem C7_witness :
    (checkWorkerHealthU [] 0).issues ≠ [] ∧ (checkPublisherHealthU [] [] 0).issues ≠ [] :=
  ⟨C7_issue_invariant.1 [] 0 (by decide), C7_issue_invariant.2 [] [] 0 (by decide)⟩

/-- C5 (confirmed): in the DB-direct publisher check, a most recent valid
generation timestamp strictly more than 25 hours old yields `degraded` with
the no-generation-in-hours issue carrying the elapsed hours, and one at most
25 hours old yields no freshness issue; the API-only check behaves the same
way on the response fields (when the recent-newsletter count is nonzero, so
the later inactive rule does not overwrite the status); and the issue for a
26-hour gap renders as the literal text mentioning "26.0 hours". -/
theorem C5_publisher_freshness :
    (∀ (t : Nat) (rest : List TsField) (genTimes : List Nat) (now : Nat),
        (25 < hoursSince now t →
          (checkPublisherHealthU (TsField.valid t :: rest) genTimes now).status = "degraded"
          ∧ Issue.noGenerationIn (hoursSince now t)
              ∈ (checkPublisherHealthU (TsField.valid t :: rest) genTimes now).issues)
        ∧ (hoursSince now t ≤ 25 →
          ∀ q : ℚ, Issue.noGenerationIn q
              ∉ (checkPublisherHealthU (TsField.valid t :: rest) genTimes now).issues))
    ∧ (∀ (p : ApiPubStatus) (now t : Nat), p.lastGeneration = TsField.valid t →
        p.recentNewsletters ≠ 0 →
        (25 < hoursSince now t →
          (checkPublisherHealthApi (some p) now).status = "degraded"
          ∧ Issue.noGenerationIn (hoursSince now t)
              ∈ (checkPublisherHealthApi (some p) now).issues)
        ∧ (hoursSince now t ≤ 25 →
          checkPublisherHealthApi (some p) now
            = ⟨p.status, p.recentNewsletters, p.lastGeneration, p.issues⟩))
    ∧ Issue.render (Issue.noGenerationIn 26) = "No generation in 26.0 hours" := by
  refine ⟨?_, ?_, ?_⟩
  · intro t rest genTimes now
    constructor
    · intro h25
      simp only [checkPublisherHealthU]
      rw [if_pos h25]
      constructor
      · exact applyPubSchedule_status_of_ne _ _ _ (by simp)
      · exact applyPubSchedule_mem_left _ _ _ _ (List.mem_singleton.mpr rfl)
    · intro h25 q hq
      simp only [checkPublisherHealthU] at hq
      rw [if_neg (not_lt.mpr h25)] at hq
      rcases applyPubSchedule_mem_cases _ _ _ _ hq with h | h
      · exact absurd h (List.not_mem_nil _)
      · exact Issue.noConfusion (checkPublisherSchedule_shape _ _ _ h)
  · intro p now t hgen hr
    constructor
    · intro h25
      constructor
      · simp [checkPublisherHealthApi, hgen, h25, hr]
      · simp [checkPublisherHealthApi, hgen, h25, hr]
    · intro h25
      have hn : ¬ 25 < hoursSince now t := not_lt.mpr h25
      simp [checkPublisherHealthApi, hgen, hn, hr]
  · have h : (⌊(26 : ℚ) * 10 + 2⁻¹⌋ : ℤ) = 260 := by norm_num
    simp only [Issue.render, fmt1, one_div, h]
    decide

/-- C5 (witness): a generation timestamp 26 hours old (day 1, 06:00 against
day 2, 08:00) is degraded with the freshness issue; one 10 hours old (day 1,
22:00) yields no freshness issue. -/
theorem C5_witness :
    ((checkPublisherHealthU [TsField.valid (mkTime 1 6 0)] [] (mkTime 2 8 0)).status = "degraded"
      ∧ Issue.noGenerationIn (hoursSince (mkTime 2 8 0) (mkTime 1 6 0))
          ∈ (checkPublisherHealthU [TsField.valid (mkTime 1 6 0)] [] (mkTime 2 8 0)).issues)
    ∧ Issue.noGenerationIn 10
        ∉ (checkPublisherHealthU [TsField.valid (mkTime 1 22 0)] [] (mkTime 2 8 0)).issues :=
  ⟨(C5_publisher_freshness.1 (mkTime 1 6 0) [] [] (mkTime 2 8 0)).1 (by
      rw [hoursSince]
      norm_num [mkTime, daySecs]),
   (C5_publisher_freshness.1 (mkTime 1 22 0) [] [] (mkTime 2 8 0)).2 (by
      rw [hoursSince]
      norm_num [mkTime, daySecs]) 10⟩

/-- C8 (counterexample): the API-only publisher check on a response with
status `healthy`, three recent newsletters and a malformed last-generation
string appends the invalid-timestamp issue but leaves the status `healthy`
— the verdict is not demoted to `error` or `degraded` as claimed. -/
theorem C8_counterexample :
    (checkPublisherHealthApi
        (some ⟨"healthy", 3, TsField.malformed "not-a-timestamp", []⟩) 0).status = "healthy"
    ∧ Issue.invalidTimestamp "not-a-timestamp"
        ∈ (checkPublisherHealthApi
            (some ⟨"healthy", 3, TsField.malformed "not-a-timestamp", []⟩) 0).issues := by
  simp [checkPublisherHealthApi]

/-- C8 (amended): malformed timestamps never propagate an exception.  In the
DB-direct implementation the raise from `fromisoformat` is caught by the
function's own handler, which returns the verdict demoted to `error` with a
health-check-failed issue naming the failure; in the API-only implementation
the parse failure is caught by an inner handler that appends an
invalid-timestamp issue while leaving the status as derived from the API
fields. -/
theorem C8_malformed_timestamp :
    (∀ (s : String) (rest : List TsField) (genTimes : List Nat) (now : Nat),
        (checkPublisherHealthU (TsField.malformed s :: rest) genTimes now).status = "error"
        ∧ (checkPublisherHealthU (TsField.malformed s :: rest) genTimes now).issues
            = [Issue.healthCheckFailed s])
    ∧ (∀ (p : ApiPubStatus) (now : Nat) (s : String), p.lastGeneration = TsField.malformed s →
        p.recentNewsletters ≠ 0 →
        (checkPublisherHealthApi (some p) now).status = p.status
        ∧ Issue.invalidTimestamp s ∈ (checkPublisherHealthApi (some p) now).issues) := by
  constructor
  · intro s rest genTimes now
    exact ⟨rfl, rfl⟩
  · intro p now s hgen hr
    constructor
    · simp [checkPublisherHealthApi, hgen, hr]
    · simp [checkPublisherHealthApi, hgen, hr]

/-- C8 (witness): the amended behaviour instantiated on the timestamp string
"bad-ts" at day 1, 12:00. -/
theorem C8_witness :
    (checkPublisherHealthU [TsField.malformed "bad-ts"] [] (mkTime 1 12 0)).status = "error"
    ∧ Issue.invalidTimestamp "bad-ts"
        ∈ (checkPublisherHealthApi
            (some ⟨"healthy", 2, TsField.malformed "bad-ts", []⟩) (mkTime 1 12 0)).issues :=
  ⟨(C8_malformed_timestamp.1 "bad-ts" [] [] (mkTime 1 12 0)).1,
   (C8_malformed_timestamp.2 ⟨"healthy", 2, TsField.malformed "bad-ts", []⟩ (mkTime 1 12 0)
      "bad-ts" rfl (by decide)).2⟩

/-- C10 (confirmed): when every valid generation timestamp in the query
result respects the trailing 24-hour cutoff of the query
(`generated_at >= now - 24 hours`), the DB-direct publisher check can never
emit the no-generation-in-hours degraded issue (the elapsed hours are at
most 24, below the 25-hour threshold), and staleness beyond the window can
only surface as the `inactive` status on an empty result. -/
theorem C10_freshness_window :
    ∀ (news : List TsField) (genTimes : List Nat) (now : Nat),
      (∀ t : Nat, TsField.valid t ∈ news → now - 86400 ≤ t) →
      (∀ q : ℚ, Issue.noGenerationIn q ∉ (checkPublisherHealthU news genTimes now).issues)
      ∧ (∀ (t : Nat) (rest : List TsField), news = TsField.valid t :: rest →
          hoursSince now t ≤ 24)
      ∧ (news = [] → (checkPublisherHealthU news genTimes now).status = "inactive") := by
  intro news genTimes now hwin
  have hbound : ∀ (t : Nat) (rest : List TsField), news = TsField.valid t :: rest →
      hoursSince now t ≤ 24 := by
    intro t rest heq
    have hmem : TsField.valid t ∈ news := by
      rw [heq]
      exact List.mem_cons_self _ _
    have h1 := hwin t hmem
    have h2 : now ≤ t + 86400 := by omega
    have h3 : (now : ℚ) ≤ (t : ℚ) + 86400 := by exact_mod_cast h2
    rw [hoursSince, div_le_iff₀ (by norm_num : (0 : ℚ) < 3600)]
    linarith
  refine ⟨?_, hbound, ?_⟩
  · intro q
    rcases news with _ | ⟨f, rest⟩
    · intro hq
      simp only [checkPublisherHealthU] at hq
      rcases applyPubSchedule_mem_cases _ _ _ _ hq with h | h
      · simp at h
      · exact Issue.noConfusion (checkPublisherSchedule_shape _ _ _ h)
    · cases f with
      | null =>
        intro hq
        simp only [checkPublisherHealthU] at hq
        rcases applyPubSchedule_mem_cases _ _ _ _ hq with h | h
        · simp at h
        · exact Issue.noConfusion (checkPublisherSchedule_shape _ _ _ h)
      | malformed s =>
        intro hq
        simp only [checkPublisherHealthU] at hq
        simp at hq
      | valid t =>
        have hle := hbound t rest rfl
        have hn : ¬ 25 < hoursSince now t := by
          intro hlt
          linarith
        intro hq
        simp only [checkPublisherHealthU] at hq
        rw [if_neg hn] at hq
        rcases applyPubSchedule_mem_cases _ _ _ _ hq with h | h
        · exact absurd h (List.not_mem_nil _)
        · exact Issue.noConfusion (checkPublisherSchedule_shape _ _ _ h)
  · intro heq
    subst heq
    exact applyPubSchedule_status_of_ne _ _ _ (by decide)

/-- C10 (witness): the window property instantiated on a single newsletter
generated at day 1, 00:00 seen at day 1, 12:00. -/
theorem C10_witness :
    Issue.noGenerationIn 12
      ∉ (checkPublisherHealthU [TsField.valid (mkTime 1 0 0)] [] (mkTime 1 12 0)).issues :=
  (C10_freshness_window [TsField.valid (mkTime 1 0 0)] [] (mkTime 1 12 0) (by
      intro t hmem
      rw [List.mem_singleton] at hmem
      injection hmem with h
      subst h
      decide)).1 12

theorem lookupAlert_cons_self (k : String) (t : Nat) (st : List (String × Nat)) :
    lookupAlert ((k, t) :: st) k = some t := by
  simp [lookupAlert]

theorem lookupAlert_cons_ne (k k' : String) (t : Nat) (st : List (String × Nat))
    (h : k' ≠ k) : lookupAlert ((k', t) :: st) k = lookupAlert st k := by
  simp [lookupAlert, h]

theorem sentTimesFor_cons_self (k : String) (t : Nat) (l : List (String × Nat)) :
    sentTimesFor k ((k, t) :: l) = t :: sentTimesFor k l := by
  simp [sentTimesFor]

theorem sentTimesFor_cons_ne (k k' : String) (t : Nat) (l : List (String × Nat))
    (h : k' ≠ k) : sentTimesFor k ((k', t) :: l) = sentTimesFor k l := by
  simp [sentTimesFor, h]

theorem runAlerts_cons_skip (enabled : Bool) (cooldown : Nat) (st : List (String × Nat))
    (r : AlertReq) (rs : List AlertReq)
    (h : sendAlertStep enabled cooldown st r = (false, st)) :
    runAlerts enabled cooldown st (r :: rs) = runAlerts enabled cooldown st rs := by
  simp only [runAlerts, h]
  simp

theorem runAlerts_cons_sent (enabled : Bool) (cooldown : Nat) (st st' : List (String × Nat))
    (r : AlertReq) (rs : List AlertReq)
    (h : sendAlertStep enabled cooldown st r = (true, st')) :
    runAlerts enabled cooldown st (r :: rs)
      = (alertKey r.service r.subject, r.now) :: runAlerts enabled cooldown st' rs := by
  simp only [runAlerts, h]
  simp

theorem sendAlertStep_spec (enabled : Bool) (cooldown : Nat) (st : List (String × Nat))
    (r : AlertReq) :
    sendAlertStep enabled cooldown st r = (false, st)
    ∨ (sendAlertStep enabled cooldown st r
          = (true, (alertKey r.service r.subject, r.now) :: st)
        ∧ ∀ t, lookupAlert st (alertKey r.service r.subject) = some t →
            t + cooldown * 60 ≤ r.now) := by
  unfold sendAlertStep
  cases enabled with
  | false => exact Or.inl rfl
  | true =>
    simp only [if_true]
    cases hl : lookupAlert st (alertKey r.service r.subject) with
    | none =>
      cases hok : r.smtpOk with
      | false => exact Or.inl (by simp)
      | true =>
        refine Or.inr ⟨by simp, ?_⟩
        intro t ht
        exact Option.noConfusion ht
    | some last =>
      by_cases hcd : r.now < last + cooldown * 60
      · exact Or.inl (by simp [hcd])
      · cases hok : r.smtpOk with
        | false => exact Or.inl (by simp [hcd])
        | true =>
          refine Or.inr ⟨by simp [hcd], ?_⟩
          intro t ht
          injection ht with ht
          omega

theorem runAlerts_spacing_aux (enabled : Bool) (cooldown : Nat) (k : String) :
    ∀ (reqs : List AlertReq) (st : List (String × Nat)),
      List.Pairwise (fun a b => a + cooldown * 60 ≤ b)
          (sentTimesFor k (runAlerts enabled cooldown st reqs))
      ∧ ∀ t, lookupAlert st k = some t →
          ∀ x ∈ sentTimesFor k (runAlerts enabled cooldown st reqs),
            t + cooldown * 60 ≤ x := by
  intro reqs
  induction reqs with
  | nil =>
    intro st
    refine ⟨List.Pairwise.nil, ?_⟩
    intro t _ x hx
    simp [runAlerts, sentTimesFor] at hx
  | cons r rs ih =>
    intro st
    rcases sendAlertStep_spec enabled cooldown st r with hstep | ⟨hstep, hbound⟩
    · rw [runAlerts_cons_skip enabled cooldown st r rs hstep]
      exact ih st
    · rw [runAlerts_cons_sent enabled cooldown st _ r rs hstep]
      by_cases hk : alertKey r.service r.subject = k
      · subst hk
        rw [sentTimesFor_cons_self]
        have ih' := ih ((alertKey r.service r.subject, r.now) :: st)
        have hsent := ih'.2 r.now (lookupAlert_cons_self _ _ _)
        refine ⟨List.pairwise_cons.mpr ⟨hsent, ih'.1⟩, ?_⟩
        intro t ht x hx
        rcases List.mem_cons.mp hx with rfl | hx2
        · exact hbound t ht
        · have h1 := hsent x hx2
          have h2 := hbound t ht
          omega
      · rw [sentTimesFor_cons_ne k (alertKey r.service r.subject) r.now _ hk]
        have ih' := ih ((alertKey r.service r.subject, r.now) :: st)
        refine ⟨ih'.1, ?_⟩
        intro t ht x hx
        refine ih'.2 t ?_ x hx
        rw [lookupAlert_cons_ne _ _ _ _ hk]
        exact ht

/-- C6 (confirmed): for every alert key, the send times recorded along any
sequence of `send_alert` calls starting from the empty cooldown state are
pairwise at least `cooldown` minutes apart (in particular any two sends of
the same (service, subject) pair are never less than the cooldown apart);
a call strictly less than `cooldown` minutes after the recorded last send
of its key is suppressed and leaves the state unchanged, even though the
underlying condition persists; and a call at or after the cooldown with a
working SMTP path is sent. -/
theorem C6_cooldown :
    (∀ (enabled : Bool) (cooldown : Nat) (reqs : List AlertReq) (k : String),
        List.Pairwise (fun a b => a + cooldown * 60 ≤ b)
          (sentTimesFor k (runAlerts enabled cooldown [] reqs)))
    ∧ (∀ (cooldown : Nat) (st : List (String × Nat)) (r : AlertReq) (last : Nat),
        lookupAlert st (alertKey r.service r.subject) = some last →
        r.now < last + cooldown * 60 →
        sendAlertStep true cooldown st r = (false, st))
    ∧ (∀ (cooldown : Nat) (st : List (String × Nat)) (r : AlertReq) (last : Nat),
        lookupAlert st (alertKey r.service r.subject) = some last →
        last + cooldown * 60 ≤ r.now → r.smtpOk = true →
        (sendAlertStep true cooldown st r).1 = true) := by
  refine ⟨?_, ?_, ?_⟩
  · intro enabled cooldown reqs k
    exact (runAlerts_spacing_aux enabled cooldown k reqs []).1
  · intro cooldown st r last hl hcd
    unfold sendAlertStep
    simp [hl, hcd]
  · intro cooldown st r last hl hcd hok
    unfold sendAlertStep
    simp [hl, hok, Nat.not_lt.mpr hcd]

/-- C6 (witness): with the default 30-minute cooldown, a second attempt 29
minutes after a send at t = 600 is suppressed, an attempt 31 minutes after
is sent, and the recorded send times of the three-call trace are pairwise at
least 30 minutes apart. -/
theorem C6_witness :
    List.Pairwise (fun a b => a + 30 * 60 ≤ b)
      (sentTimesFor "worker_Overdue"
        (runAlerts true 30 []
          [⟨"worker", "Overdue", 600, true⟩, ⟨"worker", "Overdue", 2340, true⟩,
            ⟨"worker", "Overdue", 2460, true⟩]))
    ∧ sendAlertStep true 30 [("worker_Overdue", 600)] ⟨"worker", "Overdue", 2340, true⟩
        = (false, [("worker_Overdue", 600)])
    ∧ (sendAlertStep true 30 [("worker_Overdue", 600)] ⟨"worker", "Overdue", 2460, true⟩).1
        = true :=
  ⟨C6_cooldown.1 true 30
      [⟨"worker", "Overdue", 600, true⟩, ⟨"worker", "Overdue", 2340, true⟩,
        ⟨"worker", "Overdue", 2460, true⟩] "worker_Overdue",
   C6_cooldown.2.1 30 [("worker_Overdue", 600)] ⟨"worker", "Overdue", 2340, true⟩ 600
     (by decide) (by decide),
   C6_cooldown.2.2 30 [("worker_Overdue", 600)] ⟨"worker", "Overdue", 2460, true⟩ 600
     (by decide) (by decide) rfl⟩

/-- C9 (confirmed): `send_alert` records `last_alert_times[key] = now` only
after the SMTP submission succeeds: when any step of sending raises, the
call returns with the state unchanged (so no cooldown is started and the
same alert can be attempted again on the next cycle); and whenever the state
does change, the alert was actually sent and the key now maps to the time of
this call. -/
theorem C9_failed_send_state :
    (∀ (enabled : Bool) (cooldown : Nat) (st : List (String × Nat)) (r : AlertReq),
        r.smtpOk = false → sendAlertStep enabled cooldown st r = (false, st))
    ∧ (∀ (enabled : Bool) (cooldown : Nat) (st : List (String × Nat)) (r : AlertReq),
        (sendAlertStep enabled cooldown st r).2 ≠ st →
        (sendAlertStep enabled cooldown st r).1 = true
        ∧ lookupAlert (sendAlertStep enabled cooldown st r).2 (alertKey r.service r.subject)
            = some r.now) := by
  constructor
  · intro enabled cooldown st r hok
    unfold sendAlertStep
    cases enabled with
    | false => rfl
    | true =>
      simp only [if_true]
      cases hl : lookupAlert st (alertKey r.service r.subject) with
      | none => simp [hok]
      | some last => by_cases hcd : r.now < last + cooldown * 60 <;> simp [hok, hcd]
  · intro enabled cooldown st r hne
    rcases sendAlertStep_spec enabled cooldown st r with hstep | ⟨hstep, _⟩
    · rw [hstep] at hne
      exact absurd rfl hne
    · rw [hstep]
      exact ⟨rfl, lookupAlert_cons_self _ _ _⟩

/-- C9 (witness): a failed SMTP submission at t = 100 leaves the empty state
unchanged, and a successful submission records the key. -/
theorem C9_witness :
    sendAlertStep true 30 [] ⟨"worker", "Overdue", 100, false⟩ = (false, [])
    ∧ ((sendAlertStep true 30 [] ⟨"worker", "Overdue", 100, true⟩).1 = true
        ∧ lookupAlert (sendAlertStep true 30 [] ⟨"worker", "Overdue", 100, true⟩).2
            (alertKey "worker" "Overdue") = some 100) :=
  ⟨C9_failed_send_state.1 true 30 [] ⟨"worker", "Overdue", 100, false⟩ rfl,
   C9_failed_send_state.2 true 30 [] ⟨"worker", "Overdue", 100, true⟩ (by decide)⟩
